import Mathlib

/-!
Verification development for the `MongoMemoryServer` lifecycle orchestrator
(`src/packages/mongodb-memory-server-core/src/MongoMemoryServer.ts`).

The TypeScript class is shallowly embedded as follows:

* The lifecycle state machine (`_state`, `_instanceInfo`, the `stateChange`
  EventEmitter notification, `start`, `ensureInstance`) is embedded as a
  small-step interleaving model over `Config`.  JavaScript's single-threaded
  cooperative scheduling is modelled by letting each async function run as an
  atomic segment up to its next `await`; the scheduler (a list of `SLabel`s)
  chooses which task's segment runs next and how a pending
  `_startUpInstance()` call resolves.
* `_startUpInstance`'s synchronous decision logic (the `createAuth` flag, the
  `data` record, the `mongodOpts` passed to `MongoInstance.run`, the
  auth-enabling relaunch) is embedded as the pure function `startUpInstance`,
  parameterised over the results of the external async collaborators
  (`getPort`, `tmp.dirSync`, `readdir`).
* `stop` is embedded as `stopRun`, returning the result, the post state and
  the ordered list of side effects.
* `createAuth` is embedded as `createAuthRun`, parameterised over a failure
  oracle for the connection and each issued `createUser` command, and
  returning the ordered connection-event trace together with the (mutated)
  auth configuration.  `Array.prototype.sort` is embedded as the binary
  insertion sort used by Node's engine (V8's TimSort; for short arrays it
  binary-inserts each element, moving it in front of the run exactly when the
  comparator returns a negative number).
-/

/-- The four lifecycle states of `MongoMemoryServerStateEnum`. -/
inductive MState
  | new
  | starting
  | running
  | stopped
deriving DecidableEq, Repr

/-- Errors thrown by `start` / `ensureInstance` (the messages in the source are
free-form strings; here each distinct `throw` site is one constructor). -/
inductive MErr
  /-- `'MongoDB instance already in status startup/running/error. ...'` -/
  | alreadyRunning
  /-- `'MongoMemoryServer "_state" is "running" but "instanceInfo" is undefined!'` -/
  | runningButNoInfo
  /-- `'"ensureInstance" waited for "running" but got an different state: ...'` -/
  | unexpectedState (s : MState)
  /-- a rejection propagated out of `_startUpInstance` (opaque payload) -/
  | startupFailed (code : Nat)
  /-- `'Ensure-Instance failed to start an instance!'` -/
  | ensureNoInstance
deriving DecidableEq, Repr

/-- Settled value of one caller promise: `.ok (some d)` resolves with
instance data `d`, `.ok none` is `start()` resolving with `true`,
`.err e` is a rejection. -/
inductive PResult
  | ok (d : Option Nat)
  | err (e : MErr)
deriving DecidableEq, Repr

/-- Program counter of one logical caller (task).  `ensureEntry` /
`startEntry` are tasks about to run `ensureInstance()` / `start()`;
`startAwait fe` is a task suspended on `await this._startUpInstance()`
(`fe` records whether the `start()` call came from `ensureInstance`);
`waiting` is a task registered as a `once('stateChange', ...)` listener;
`ensureAfterStart` is `ensureInstance` resumed after `await this.start()`;
`done r` is a settled caller promise. -/
inductive TaskCode
  | ensureEntry
  | startEntry
  | startAwait (fromEnsure : Bool)
  | waiting
  | ensureAfterStart
  | done (r : PResult)
deriving DecidableEq, Repr

/-- Global configuration: the orchestrator's private fields plus the set of
logical caller tasks.  Instance data (`MongoInstanceData`) is opaque to the
state machine, so it is represented by a `Nat` identity.  `waiters` is the
ordered list of registered one-shot `stateChange` listeners;  `startCount`
counts how many executions of `_startUpInstance` have begun. -/
structure Config where
  info : Option Nat
  st : MState
  waiters : List Nat
  tasks : Nat → TaskCode
  startCount : Nat

/-- Replace the code of task `id`. -/
def setTask (c : Config) (id : Nat) (t : TaskCode) : Config :=
  { c with tasks := fun n => if n = id then t else c.tasks n }

/-- Result of the one-shot waiter callback registered by `ensureInstance` in
the `starting` case: the callback first rejects when the reported state is not
`running`, otherwise the `res(this._instanceInfo)` call settles the promise. -/
def waiterResult (s : MState) (info : Option Nat) : PResult :=
  if s ≠ MState.running then PResult.err (MErr.unexpectedState s) else PResult.ok info

/-- `stateChange(newState)`: assign `_state`, then `emit` synchronously to
every registered one-shot listener (each listener is removed and then invoked
with the new state; its promise settles via `waiterResult`). -/
def emitStateChange (c : Config) (s : MState) : Config :=
  { c with
    st := s
    waiters := []
    tasks := fun n =>
      if n ∈ c.waiters ∧ c.tasks n = TaskCode.waiting then
        TaskCode.done (waiterResult s c.info)
      else c.tasks n }

/-- The synchronous segment of `start()` after its guard has passed:
`stateChange('starting')` runs (notifying any listeners), then
`this._startUpInstance()` begins and the task suspends on its promise. -/
def beginStart (c : Config) (id : Nat) (fromEnsure : Bool) : Config :=
  { setTask (emitStateChange c MState.starting) id (TaskCode.startAwait fromEnsure) with
    startCount := c.startCount + 1 }

/-- Outcome of one `_startUpInstance()` execution: `.ok d` resolves with
instance data `d`, `.fail code` is a rejection (opaque payload). -/
inductive SOutcome
  | ok (d : Nat)
  | fail (code : Nat)
deriving DecidableEq, Repr

/-- Scheduler labels: `run id` executes the next synchronous segment of task
`id`; `resolve id o` resolves task `id`'s pending `_startUpInstance()` call
with outcome `o`. -/
inductive SLabel
  | run (id : Nat)
  | resolve (id : Nat) (o : SOutcome)
deriving DecidableEq, Repr

/-- One small step of the interleaving semantics.  Each branch is one
synchronous segment of the corresponding TypeScript method:

* `ensureInstance()` entry: return `_instanceInfo` when present; throw in the
  `running`-without-info case; in `new`/`stopped` fall through to `start()`
  (whose guard re-checks `_instanceInfo`, still absent in the same segment)
  and suspend inside `_startUpInstance`; in `starting` register a one-shot
  `stateChange` listener.
* `start()` entry: throw `alreadyRunning` when `_instanceInfo` is present,
  otherwise `stateChange('starting')` and suspend inside `_startUpInstance`.
* resolution of `_startUpInstance`: on success assign `_instanceInfo`, then
  `stateChange('running')` (settling all registered waiters synchronously),
  then settle the `start()` promise; on failure re-throw (no state change, no
  notification).
* `ensureAfterStart`: the re-check of `_instanceInfo` after `await start()`.

A label that does not apply to the current task code leaves the
configuration unchanged. -/
def step (c : Config) : SLabel → Config
  | SLabel.run id =>
    match c.tasks id with
    | TaskCode.ensureEntry =>
      match c.info with
      | some d => setTask c id (TaskCode.done (PResult.ok (some d)))
      | none =>
        match c.st with
        | MState.running => setTask c id (TaskCode.done (PResult.err MErr.runningButNoInfo))
        | MState.new => beginStart c id true
        | MState.stopped => beginStart c id true
        | MState.starting =>
          { setTask c id TaskCode.waiting with waiters := c.waiters ++ [id] }
    | TaskCode.startEntry =>
      match c.info with
      | some _ => setTask c id (TaskCode.done (PResult.err MErr.alreadyRunning))
      | none => beginStart c id false
    | TaskCode.ensureAfterStart =>
      match c.info with
      | some d => setTask c id (TaskCode.done (PResult.ok (some d)))
      | none => setTask c id (TaskCode.done (PResult.err MErr.ensureNoInstance))
    | _ => c
  | SLabel.resolve id o =>
    match c.tasks id with
    | TaskCode.startAwait fe =>
      match o with
      | SOutcome.ok d =>
        let c2 := emitStateChange { c with info := some d } MState.running
        setTask c2 id (if fe then TaskCode.ensureAfterStart else TaskCode.done (PResult.ok none))
      | SOutcome.fail e => setTask c id (TaskCode.done (PResult.err (MErr.startupFailed e)))
    | _ => c

/-- Run a whole schedule. -/
def runTrace (c : Config) (ls : List SLabel) : Config :=
  ls.foldl step c

/-- A fresh orchestrator with two independent direct `start()` callers. -/
def cfgTwoStarts : Config :=
  { info := none
    st := MState.new
    waiters := []
    tasks := fun n => if n = 1 ∨ n = 2 then TaskCode.startEntry else TaskCode.done (PResult.ok none)
    startCount := 0 }

/-- An orchestrator already inside a startup attempt (task 1 suspended in
`_startUpInstance`) observed by a new `ensureInstance()` caller (task 3). -/
def cfgStartingEnsure : Config :=
  { info := none
    st := MState.starting
    waiters := []
    tasks := fun n =>
      if n = 1 then TaskCode.startAwait false
      else if n = 3 then TaskCode.ensureEntry
      else TaskCode.done (PResult.ok none)
    startCount := 1 }

/-! ## The `_startUpInstance` decision logic -/

/-- The subset of `MongoMemoryInstanceProp` (`this.opts.instance`) read by
`_startUpInstance`. -/
structure InstanceOpts where
  port : Option Nat
  dbName : Option String
  ip : Option String
  storageEngine : Option String
  replSet : Option String
  dbPath : Option String
  args : Option (List String)
  auth : Option Bool
deriving DecidableEq, Repr

/-- A user spec of the `CreateUser` interface.  `customData` is kept opaque
(a string stands for an arbitrary document). -/
structure CreateUserSpec where
  createUser : String
  pwd : String
  database : Option String
  roles : List String
  mechanisms : Option (List String)
  authenticationRestrictions : Option (List String)
  digestPassword : Option Bool
  customData : Option String
deriving DecidableEq, Repr

/-- The resolved `Required<AutomaticAuth>` stored in `this.auth`. -/
structure AuthObject where
  disable : Bool
  extraUsers : List CreateUserSpec
  customRootName : String
  customRootPwd : String
  force : Bool
deriving DecidableEq, Repr

/-- Caller-supplied `AutomaticAuth` before defaulting (every field optional). -/
structure AutomaticAuthOpts where
  disable : Option Bool
  extraUsers : Option (List CreateUserSpec)
  customRootName : Option String
  customRootPwd : Option String
  force : Option Bool
deriving DecidableEq, Repr

/-- Modelled from the spec: `authDefault` lives in `util/utils`, which is not
under `src/`.  Per the `AutomaticAuth` field documentation in
`MongoMemoryServer.ts`, unset fields default to `disable := false`,
`extraUsers := []`, `customRootName := "mongodb-memory-server-root"`,
`customRootPwd := "rootuser"`, `force := false`. -/
def authDefault (o : AutomaticAuthOpts) : AuthObject :=
  { disable := o.disable.getD false
    extraUsers := o.extraUsers.getD []
    customRootName := o.customRootName.getD "mongodb-memory-server-root"
    customRootPwd := o.customRootPwd.getD "rootuser"
    force := o.force.getD false }

/-- JavaScript truthiness of an optional boolean (`!!x`): only `true` is
truthy; `undefined` and `false` are falsy. -/
def optBoolTruthy (o : Option Bool) : Bool :=
  match o with
  | some b => b
  | none => false

/-- JavaScript truthiness of an optional string (`!!x`): `undefined` and the
empty string are falsy. -/
def optStrTruthy (o : Option String) : Bool :=
  match o with
  | some s => !s.isEmpty
  | none => false

/-- The `createAuth` flag of `_startUpInstance`, computed exactly where the
source computes it: `!!instOpts.auth && !isNullOrUndefined(this.auth) &&
!this.auth.disable && (this.auth.force || isNew) && !instOpts.replSet`.
`isNew` is the value the variable has at this point of the method. -/
def createAuthDecision (authObj : Option AuthObject) (io : InstanceOpts)
    (isNew : Bool) : Bool :=
  optBoolTruthy io.auth &&
    (match authObj with
     | none => false
     | some a => !a.disable && (a.force || isNew)) &&
    !optStrTruthy io.replSet

/-- The `StartupInstanceData` record (`data` variable). -/
structure StartupInstanceData where
  port : Nat
  dbPath : Option String
  dbName : String
  ip : String
  storageEngine : String
  replSet : Option String
  tmpDir : Option String
deriving DecidableEq, Repr

/-- Modelled from the spec: `generateDbName` lives in `util/utils`, which is
not under `src/`; it returns the given name when present, otherwise a
generated one (opaque here).  No claim depends on its exact value. -/
def generateDbName (o : Option String) : String :=
  o.getD "generated-db"

/-- Steps 1-2 of the startup protocol: build `data` from the resolved port,
then either provision a temporary directory (caller supplied no `dbPath`, or
an empty-string one — JavaScript `if (!data.dbPath)`) re-marking `isNew :=
true`, or list the supplied directory and set `isNew := files.length > 0`.
`gotPort` is the result of `getPort`, `tmpName` the name of the directory
`tmp.dirSync` would create, `files` the `readdir` listing.  Returns `data`
together with the final value of `isNew`. -/
def resolveData (io : InstanceOpts) (gotPort : Nat) (tmpName : String)
    (files : List String) : StartupInstanceData × Bool :=
  let data0 : StartupInstanceData :=
    { port := gotPort
      dbPath := io.dbPath
      dbName := generateDbName io.dbName
      ip := io.ip.getD "127.0.0.1"
      storageEngine := io.storageEngine.getD "ephemeralForTest"
      replSet := io.replSet
      tmpDir := none }
  if !optStrTruthy data0.dbPath then
    ({ data0 with tmpDir := some tmpName, dbPath := some tmpName }, true)
  else
    (data0, files.length > 0)

/-- The `mongodOpts.instance` record handed to `MongoInstance.run` (the outer
`binary` and `spawn` fields are pass-throughs of `this.opts` and carry no
claim-relevant content). -/
structure MongodInstanceOpts where
  dbPath : Option String
  ip : String
  port : Nat
  storageEngine : String
  replSet : Option String
  args : Option (List String)
  auth : Option Bool
deriving DecidableEq, Repr

/-- `mongodOpts.instance` as built by `_startUpInstance`: every field copied
from `data` / `instOpts`, with `auth: createAuth ? false : instOpts.auth`. -/
def mkFirstOpts (io : InstanceOpts) (data : StartupInstanceData)
    (createAuth : Bool) : MongodInstanceOpts :=
  { dbPath := data.dbPath
    ip := data.ip
    port := data.port
    storageEngine := data.storageEngine
    replSet := data.replSet
    args := io.args
    auth := if createAuth then some false else io.auth }

/-- Everything `_startUpInstance` decides synchronously in one attempt. -/
structure StartupResult where
  createAuth : Bool
  isNewFinal : Bool
  data : StartupInstanceData
  firstOpts : MongodInstanceOpts
  killedNoAuth : Bool
  relaunchOpts : Option MongodInstanceOpts
  warnedEphemeral : Bool
deriving DecidableEq, Repr

/-- The decision structure of `_startUpInstance`, in source order:

1. `let isNew = true`;
2. `const createAuth = ...` (reading `isNew`, still `true`);
3. build `data` (resolving port / temporary directory / `readdir`), updating
   `isNew` (never read again);
4. build `mongodOpts` and launch;
5. `if (!isNullOrUndefined(this.auth) && createAuth)`: run `createAuth`, then
   if `data.storageEngine !== 'ephemeralForTest'` kill the no-auth instance
   and relaunch with `{...mongodOpts, instance: {...mongodOpts.instance,
   auth: instOpts.auth}}`, otherwise only `console.warn`. -/
def startUpInstance (authObj : Option AuthObject) (io : InstanceOpts)
    (gotPort : Nat) (tmpName : String) (files : List String) : StartupResult :=
  let isNew0 := true
  let createAuth := createAuthDecision authObj io isNew0
  let resolved := resolveData io gotPort tmpName files
  let data := resolved.1
  let firstOpts := mkFirstOpts io data createAuth
  let bootstrapRan := authObj.isSome && createAuth
  let ephemeral := data.storageEngine = "ephemeralForTest"
  { createAuth := createAuth
    isNewFinal := resolved.2
    data := data
    firstOpts := firstOpts
    killedNoAuth := bootstrapRan && !ephemeral
    relaunchOpts :=
      if bootstrapRan && !ephemeral then some { firstOpts with auth := io.auth } else none
    warnedEphemeral := bootstrapRan && ephemeral }

/-- Modelled from the spec: the claimed bootstrap condition, "AuthConfig must
be present and not disabled, AND (instance is fresh OR forceBootstrap is
set), AND no replica-set name is configured", with the caller's instance auth
option enabled; "fresh" means a newly created temporary directory (no
caller-supplied path) or a caller-supplied directory whose listing is
empty. -/
def specShouldBootstrap (authObj : Option AuthObject) (io : InstanceOpts)
    (files : List String) : Bool :=
  let fresh := !optStrTruthy io.dbPath || files.isEmpty
  optBoolTruthy io.auth &&
    (match authObj with
     | none => false
     | some a => !a.disable && (a.force || fresh)) &&
    !optStrTruthy io.replSet

/-- Instance options of the C1 failing input: authentication requested, a
caller-supplied data directory, no replica set. -/
def c1InstOpts : InstanceOpts :=
  { port := none
    dbName := none
    ip := none
    storageEngine := some "wiredTiger"
    replSet := none
    dbPath := some "/data/existing"
    args := none
    auth := some true }

/-- Resolved auth config of the C1 failing input: enabled, not forced. -/
def c1Auth : AuthObject :=
  { disable := false
    extraUsers := []
    customRootName := "mongodb-memory-server-root"
    customRootPwd := "rootuser"
    force := false }

/-! ## The `stop` teardown -/

/-- The fields of `MongoInstanceData` that `stop()` touches: the process
handle is opaque (its `kill()` outcome is an oracle parameter), `tmpDir` is
the temporary-directory handle's name when one was allocated. -/
structure StopInfo where
  port : Nat
  tmpDir : Option String
deriving DecidableEq, Repr

/-- Orchestrator state as seen by `stop()`. -/
structure StopState where
  info : Option StopInfo
  st : MState
deriving DecidableEq, Repr

/-- Side effects of `stop()`, in issue order. -/
inductive StopEffect
  | killInstance
  | removeTmpDir (name : String)
  | clearInstanceInfo
  | stateChanged (s : MState)
deriving DecidableEq, Repr

/-- Result of a `stop()` call. -/
inductive StopResult
  | ok (b : Bool)
  | err (msg : String)
deriving DecidableEq, Repr

/-- `stop()`: return `true` immediately when `_instanceInfo` is absent;
otherwise `await instance.kill()` (a rejection propagates, leaving every
field untouched), then `tmpDir.removeCallback()` when a handle exists, then
clear `_instanceInfo`, then `stateChange('stopped')`.  `killOk` is the
oracle for the `kill()` outcome.  (The defensive
`assertion(!isNullOrUndefined(this._instanceInfo.instance))` cannot fire
here because `MongoInstanceData.instance` is non-optional.) -/
def stopRun (killOk : Bool) (s : StopState) : StopResult × StopState × List StopEffect :=
  match s.info with
  | none => (StopResult.ok true, s, [])
  | some i =>
    if killOk then
      (StopResult.ok true,
        { info := none, st := MState.stopped },
        [StopEffect.killInstance] ++
          (match i.tmpDir with
           | some n => [StopEffect.removeTmpDir n]
           | none => []) ++
          [StopEffect.clearInstanceInfo, StopEffect.stateChanged MState.stopped])
    else
      (StopResult.err "kill failed", s, [StopEffect.killInstance])

/-- Count of temporary-directory releases in an effect list. -/
def countTmpReleases (es : List StopEffect) : Nat :=
  es.countP fun e =>
    match e with
    | StopEffect.removeTmpDir _ => true
    | _ => false

/-! ## The `createAuth` bootstrap -/

/-- Connection-string format per the `uriTemplate` helper (`util/utils`, not
under `src/`): modelled from the spec, `scheme://host:port/databaseName`. -/
def uriTemplate (ip : String) (port : Nat) (db : String) : String :=
  "mongodb://" ++ ip ++ ":" ++ toString port ++ "/" ++ db

/-- One `db.command({createUser: ...})` document together with the database
it is issued against.  Fields absent from the document are `none` (the root
user document carries no `authenticationRestrictions` / `digestPassword`). -/
structure CreateUserCommand where
  targetDb : String
  createUser : String
  pwd : String
  roles : List String
  mechanisms : Option (List String)
  authenticationRestrictions : Option (List String)
  digestPassword : Option Bool
  customData : Option String
deriving DecidableEq, Repr

/-- The root-user command issued first by `createAuth`: name from
`this.auth.customRootName`, password the string literal `'rootuser'`,
mechanism `SCRAM-SHA-256`, role `root`, a fixed `customData` marker. -/
def rootUserCommand (auth : AuthObject) : CreateUserCommand :=
  { targetDb := "admin"
    createUser := auth.customRootName
    pwd := "rootuser"
    roles := ["root"]
    mechanisms := some ["SCRAM-SHA-256"]
    authenticationRestrictions := none
    digestPassword := none
    customData := some "ROOTUSER" }

/-- The source's comparator passed to `this.auth.extraUsers.sort`:
`-1` when the left user's database is exactly `'admin'`, `0` when the two
database fields are equal (including both unset), else `1`. -/
def userCompare (a b : CreateUserSpec) : Int :=
  if a.database = some "admin" then -1
  else if a.database = b.database then 0
  else 1

/-- The binary search of the engine's binary insertion sort (V8 TimSort):
probe `m := (l + r) / 2`; when `probeNeg m` holds (the comparator returned a
negative number for `compare(pivot, a[m])`) continue in `[l, m)`, else in
`[m + 1, r)`.  `fuel` bounds the iteration count; `r - l` iterations always
suffice. -/
def binSearchAux (probeNeg : Nat → Bool) : Nat → Nat → Nat → Nat
  | 0, l, _ => l
  | fuel + 1, l, r =>
    if l < r then
      let m := (l + r) / 2
      if probeNeg m then binSearchAux probeNeg fuel l m
      else binSearchAux probeNeg fuel (m + 1) r
    else l

/-- Insert `x` at position `n` (shifting the tail right), as the engine's
element move does. -/
def insAt (n : Nat) (x : α) : List α → List α :=
  match n with
  | 0 => fun l => x :: l
  | n + 1 => fun l =>
    match l with
    | [] => [x]
    | y :: l => y :: insAt n x l

/-- Delete the element at position `n`. -/
def delAt (n : Nat) : List α → List α
  | [] => []
  | y :: l =>
    match n with
    | 0 => l
    | n + 1 => y :: delAt n l

/-- One step of the engine's binary insertion sort: take the pivot at index
`i`, binary-search its position in the sorted prefix `[0, i)` using only the
sign of `cmp pivot probedElement`, and move it there. -/
def binInsertStep (cmp : α → α → Int) (xs : List α) (i : Nat) : List α :=
  match xs.get? i with
  | none => xs
  | some pivot =>
    let pos := binSearchAux (fun m => cmp pivot ((xs.get? m).getD pivot) < 0) i 0 i
    insAt pos pivot (delAt i xs)

/-- The remaining insertion steps, one per fuel unit, starting at index `i`. -/
def jsSortAux (cmp : α → α → Int) : Nat → Nat → List α → List α
  | 0, _, xs => xs
  | fuel + 1, i, xs => jsSortAux cmp fuel (i + 1) (binInsertStep cmp xs i)

/-- `Array.prototype.sort(cmp)` as executed by Node's engine on the arrays at
hand: V8's TimSort, which for short arrays binary-inserts the elements at
indices `1 .. n-1` in turn (its initial-run detection produces the same
result for a comparator, like `userCompare`, whose sign depends only on the
first argument). -/
def jsSort (cmp : α → α → Int) (xs : List α) : List α :=
  jsSortAux cmp (xs.length - 1) 1 xs

/-- Does this user's `database` field hold exactly `'admin'`?  (An unset
field does not, which is what the source's comparator tests.) -/
def isExplicitAdmin (u : CreateUserSpec) : Bool :=
  u.database = some "admin"

/-- The user's database after the loop's defaulting
(`user.database = isNullOrUndefined(user.database) ? 'admin' : user.database`). -/
def effectiveDb (u : CreateUserSpec) : String :=
  u.database.getD "admin"

/-- The in-place defaulting write applied to each user inside the loop. -/
def defaultDbUser (u : CreateUserSpec) : CreateUserSpec :=
  { u with database := some (effectiveDb u) }

/-- The extra-user command issued for the (already defaulted) user `u`:
every optional document field defaulted as in the source
(`customData ?? {}`, `authenticationRestrictions ?? []`,
`mechanisms ?? ['SCRAM-SHA-256']`, `digestPassword ?? true`). -/
def extraUserCommand (u : CreateUserSpec) : CreateUserCommand :=
  { targetDb := effectiveDb u
    createUser := u.createUser
    pwd := u.pwd
    roles := u.roles
    mechanisms := some (u.mechanisms.getD ["SCRAM-SHA-256"])
    authenticationRestrictions := some (u.authenticationRestrictions.getD [])
    digestPassword := some (u.digestPassword.getD true)
    customData := some (u.customData.getD "emptyDocument") }

/-- Events on the bootstrap's `MongoClient` connection, in order. -/
inductive ConnEvent
  | connect (uri : String)
  | command (db : String) (cmd : CreateUserCommand)
  | close
deriving DecidableEq, Repr

/-- Outcome of a `createAuth` run. -/
inductive CAOutcome
  | success
  | failure (stage : String)
deriving DecidableEq, Repr

/-- The whole observable behaviour of one `createAuth` call. -/
structure CreateAuthRun where
  trace : List ConnEvent
  result : CAOutcome
  finalAuth : AuthObject
deriving DecidableEq, Repr

/-- The `for (const user of this.auth.extraUsers)` loop over the (already
sorted) users: default the user's `database` in place, switch `db` when it
differs from the current one, issue the command; a failing command (oracle
`cmdOk` indexed by issue order, the root command being index 0) aborts the
loop and propagates.  Returns the events, the outcome and the array contents
after the loop (mutated up to and including the failing user). -/
def createUsersLoop (cmdOk : Nat → Bool) :
    Nat → String → List CreateUserSpec →
    List ConnEvent × CAOutcome × List CreateUserSpec
  | _, _, [] => ([], CAOutcome.success, [])
  | idx, dbName, u :: rest =>
    let u2 := defaultDbUser u
    let newDb := if u2.database ≠ some dbName then effectiveDb u else dbName
    let cmd := extraUserCommand u
    if cmdOk idx then
      let r := createUsersLoop cmdOk (idx + 1) newDb rest
      (ConnEvent.command newDb cmd :: r.1, r.2.1, u2 :: r.2.2)
    else
      ([ConnEvent.command newDb cmd], CAOutcome.failure "createUser command", u2 :: rest)

/-- `createAuth(data)`: connect to the `admin` database of the running
no-auth instance, create the root user, then — when `extraUsers` is
non-empty — sort `this.auth.extraUsers` **in place** and run the creation
loop, and finally `await con.close()`.  There is no `try`/`finally`: a
rejection anywhere propagates immediately.  `connectOk` and `cmdOk` are the
failure oracles for `MongoClient.connect` and each `db.command`. -/
def createAuthRun (ip : String) (port : Nat) (auth : AuthObject)
    (connectOk : Bool) (cmdOk : Nat → Bool) : CreateAuthRun :=
  if ¬connectOk then
    { trace := [], result := CAOutcome.failure "connect", finalAuth := auth }
  else
    let uri := uriTemplate ip port "admin"
    let rootTrace := [ConnEvent.connect uri,
      ConnEvent.command "admin" (rootUserCommand auth)]
    if ¬cmdOk 0 then
      { trace := rootTrace, result := CAOutcome.failure "root createUser", finalAuth := auth }
    else if auth.extraUsers.length > 0 then
      let sorted := jsSort userCompare auth.extraUsers
      let r := createUsersLoop cmdOk 1 "admin" sorted
      match r.2.1 with
      | CAOutcome.success =>
        { trace := rootTrace ++ r.1 ++ [ConnEvent.close]
          result := CAOutcome.success
          finalAuth := { auth with extraUsers := r.2.2 } }
      | CAOutcome.failure s =>
        { trace := rootTrace ++ r.1
          result := CAOutcome.failure s
          finalAuth := { auth with extraUsers := r.2.2 } }
    else
      { trace := rootTrace ++ [ConnEvent.close]
        result := CAOutcome.success
        finalAuth := auth }

/-- The extra-user commands of a run, in issue order (all `command` events
except the leading root command). -/
def extraCommands (r : CreateAuthRun) : List CreateUserCommand :=
  (r.trace.filterMap fun e =>
    match e with
    | ConnEvent.command _ c => some c
    | _ => none).drop 1

/-- A user spec with only name, password and target database set. -/
def plainUser (name : String) (db : Option String) : CreateUserSpec :=
  { createUser := name
    pwd := "pw"
    database := db
    roles := []
    mechanisms := none
    authenticationRestrictions := none
    digestPassword := none
    customData := none }

/-- The claimed issue order (modelled from the spec's words): a stable sort
of `extraUsers` putting every user whose *effective* database (unset
defaulting to `'admin'`) is the administrative one first, ties in original
order — i.e. the stable two-bucket partition. -/
def specClaimedOrder (l : List CreateUserSpec) : List CreateUserSpec :=
  l.filter (fun u => effectiveDb u = "admin") ++
    l.filter (fun u => ¬(effectiveDb u = "admin"))

/-- Auth config of the C8 failing input: a caller-chosen root password. -/
def c8Auth : AuthObject :=
  { disable := false
    extraUsers := []
    customRootName := "mongodb-memory-server-root"
    customRootPwd := "secret-root-pw"
    force := false }

/-- Extra users of the C7 counterexample: two users explicitly targeting
`'admin'`, one targeting another database, one with `database` unset. -/
def c7Users : List CreateUserSpec :=
  [plainUser "adminOne" (some "admin"),
   plainUser "adminTwo" (some "admin"),
   plainUser "alice" (some "otherdb"),
   plainUser "bob" none]

/-- Auth config of the C7 counterexample. -/
def c7Auth : AuthObject :=
  { disable := false
    extraUsers := c7Users
    customRootName := "mongodb-memory-server-root"
    customRootPwd := "rootuser"
    force := false }

/-- Auth config of the C10 counterexample: two explicit-admin users (their
order is changed by the in-place sort) and one user with `database` unset
(overwritten by the defaulting). -/
def c10Auth : AuthObject :=
  { disable := false
    extraUsers := [plainUser "adminOne" (some "admin"),
      plainUser "adminTwo" (some "admin"),
      plainUser "bob" none]
    customRootName := "mongodb-memory-server-root"
    customRootPwd := "rootuser"
    force := false }

/-- An all-successes command oracle. -/
def allCmdsOk : Nat → Bool := fun _ => true

/-- A command oracle whose first (root) command fails. -/
def rootCmdFails : Nat → Bool := fun n => !(n = 0 : Bool)

/-- Concrete stop-state with an allocated temporary directory, for the C5
witness. -/
def c5State : StopState :=
  { info := some { port := 27017, tmpDir := some "/tmp/mongo-mem-1" }
    st := MState.running }

/-- Concrete configuration for the C3 witness: caller 1 runs
`ensureInstance` in various situations assembled below. -/
def c3CfgInfoPresent : Config :=
  { info := some 5
    st := MState.running
    waiters := []
    tasks := fun n => if n = 1 then TaskCode.ensureEntry else TaskCode.done (PResult.ok none)
    startCount := 1 }

/-- C3 witness configuration: `running` but `_instanceInfo` absent. -/
def c3CfgRunningNoInfo : Config :=
  { info := none
    st := MState.running
    waiters := []
    tasks := fun n => if n = 1 then TaskCode.ensureEntry else TaskCode.done (PResult.ok none)
    startCount := 1 }

/-- C3 witness configuration: fresh orchestrator (`new`). -/
def c3CfgNew : Config :=
  { info := none
    st := MState.new
    waiters := []
    tasks := fun n => if n = 1 then TaskCode.ensureEntry else TaskCode.done (PResult.ok none)
    startCount := 0 }

/-- C3 witness configuration: a startup in flight (task 2 suspended),
task 1 about to call `ensureInstance`. -/
def c3CfgStarting : Config :=
  { info := none
    st := MState.starting
    waiters := []
    tasks := fun n =>
      if n = 1 then TaskCode.ensureEntry
      else if n = 2 then TaskCode.startAwait false
      else TaskCode.done (PResult.ok none)
    startCount := 1 }

/-- C3 witness configuration: task 1 registered as a waiter, a startup in
flight that is about to succeed with data `7`. -/
def c3CfgWaiting : Config :=
  { info := some 7
    st := MState.starting
    waiters := [1]
    tasks := fun n =>
      if n = 1 then TaskCode.waiting
      else TaskCode.done (PResult.ok none)
    startCount := 1 }

/-- C6 witness configuration: instance data present, task 1 calls
`start()`. -/
def c6Cfg : Config :=
  { info := some 9
    st := MState.running
    waiters := []
    tasks := fun n => if n = 1 then TaskCode.startEntry else TaskCode.done (PResult.ok none)
    startCount := 1 }

/-! ## Helper lemmas -/

/-- When every probe answers "negative comparator result", the binary search
collapses to the left bound (an explicit-admin pivot is inserted at 0). -/
theorem binSearchAux_const_true (p : Nat → Bool) (hp : ∀ m, p m = true) :
    ∀ fuel l r, r - l ≤ fuel → binSearchAux p fuel l r = l := by
  intro fuel
  induction fuel with
  | zero => intro l r _; rfl
  | succ f ih =>
    intro l r _
    by_cases hlr : l < r
    · have hm : (l + r) / 2 < r := by omega
      simp only [binSearchAux, if_pos hlr, hp]
      exact ih l ((l + r) / 2) (by omega)
    · simp only [binSearchAux, if_neg hlr]

/-- When every probe answers "non-negative comparator result", the binary
search collapses to the right bound (a non-admin pivot stays in place). -/
theorem binSearchAux_const_false (p : Nat → Bool) (hp : ∀ m, p m = false) :
    ∀ fuel l r, l ≤ r → r - l ≤ fuel → binSearchAux p fuel l r = r := by
  intro fuel
  induction fuel with
  | zero =>
    intro l r h1 h2
    have h3 : l = r := by omega
    simpa [binSearchAux] using h3
  | succ f ih =>
    intro l r h1 _
    by_cases hlr : l < r
    · have hm1 : l ≤ (l + r) / 2 := by omega
      have hm2 : (l + r) / 2 < r := by omega
      simp only [binSearchAux, if_pos hlr, hp]
      exact ih ((l + r) / 2 + 1) r (by omega) (by omega)
    · have h3 : l = r := by omega
      subst h3
      simp [binSearchAux]

/-- The sign of `userCompare` depends only on its first argument: it is
negative exactly when that user's `database` field is literally `'admin'`. -/
theorem userCompare_neg (a b : CreateUserSpec) :
    decide (userCompare a b < 0) = isExplicitAdmin a := by
  by_cases h : a.database = some "admin"
  · simp only [userCompare, if_pos h, isExplicitAdmin]
    simp [h]
  · by_cases h2 : a.database = b.database
    · simp only [userCompare, if_neg h, if_pos h2, isExplicitAdmin]
      simp [h]
    · simp only [userCompare, if_neg h, if_neg h2, isExplicitAdmin]
      simp [h]

/-- Element lookup at the length of the left part. -/
theorem get_at_append (B : List α) (x : α) (t : List α) :
    (B ++ x :: t).get? B.length = some x := by
  induction B with
  | nil => rfl
  | cons b B ih => simpa using ih

/-- Deleting at the length of the left part removes the middle element. -/
theorem delAt_append (B : List α) (x : α) (t : List α) :
    delAt B.length (B ++ x :: t) = B ++ t := by
  induction B with
  | nil => rfl
  | cons b B ih => simpa [delAt] using ih

/-- Inserting at the length of the left part puts the element in the
middle. -/
theorem insAt_append (B : List α) (x : α) (t : List α) :
    insAt B.length x (B ++ t) = B ++ x :: t := by
  induction B with
  | nil => rfl
  | cons b B ih => simpa [insAt] using ih

/-- One binary-insertion step under `userCompare`: an explicit-admin pivot
moves to the front, every other pivot stays in place. -/
theorem binInsertStep_userCompare (B : List CreateUserSpec) (x : CreateUserSpec)
    (t : List CreateUserSpec) :
    binInsertStep userCompare (B ++ x :: t) B.length
      = if isExplicitAdmin x then x :: (B ++ t) else B ++ x :: t := by
  simp only [binInsertStep, get_at_append]
  by_cases hx : isExplicitAdmin x = true
  · rw [binSearchAux_const_true
      (fun m => decide (userCompare x (((B ++ x :: t).get? m).getD x) < 0))
      (fun m => by simp only [userCompare_neg]; exact hx) B.length 0 B.length (by omega)]
    simp [delAt_append, hx, insAt]
  · have hx2 : isExplicitAdmin x = false := by simpa using hx
    rw [binSearchAux_const_false
      (fun m => decide (userCompare x (((B ++ x :: t).get? m).getD x) < 0))
      (fun m => by simp only [userCompare_neg]; exact hx2) B.length 0 B.length
      (by omega) (by omega)]
    simp only [delAt_append, insAt_append, if_neg hx]

/-- Lengths of the two filter buckets add up. -/
theorem partition_length (p : α → Bool) (l : List α) :
    (l.filter p).length + (l.filter fun a => !(p a)).length = l.length := by
  induction l with
  | nil => rfl
  | cons x l ih => by_cases h : p x <;> simp [List.filter_cons, h] <;> omega

/-- Invariant of the binary-insertion loop under `userCompare`: after the
prefix `pre` has been processed the list is the reversed admin bucket
followed by the untouched non-admin bucket, and the loop continues over
`rest`. -/
theorem jsSortAux_userCompare (rest : List CreateUserSpec) :
    ∀ pre : List CreateUserSpec,
      jsSortAux userCompare rest.length pre.length
          (((pre.filter isExplicitAdmin).reverse
              ++ pre.filter fun u => !(isExplicitAdmin u)) ++ rest)
        = ((pre ++ rest).filter isExplicitAdmin).reverse
            ++ (pre ++ rest).filter fun u => !(isExplicitAdmin u) := by
  induction rest with
  | nil => intro pre; simp [jsSortAux]
  | cons r rest ih =>
    intro pre
    have hlen : ((pre.filter isExplicitAdmin).reverse
        ++ pre.filter fun u => !(isExplicitAdmin u)).length = pre.length := by
      simp only [List.length_append, List.length_reverse]
      exact partition_length _ _
    simp only [List.length_cons, jsSortAux]
    rw [← hlen, binInsertStep_userCompare]
    by_cases hr : isExplicitAdmin r = true
    · rw [if_pos hr]
      have hpre : r :: (((pre.filter isExplicitAdmin).reverse
            ++ pre.filter fun u => !(isExplicitAdmin u)) ++ rest)
          = ((((pre ++ [r]).filter isExplicitAdmin).reverse
              ++ (pre ++ [r]).filter fun u => !(isExplicitAdmin u)) ++ rest) := by
        simp [List.filter_append, hr, List.reverse_append]
      rw [hpre, hlen]
      have hli : pre.length + 1 = (pre ++ [r]).length := by simp
      rw [hli, ih (pre ++ [r])]
      simp
    · have hr2 : isExplicitAdmin r = false := by simpa using hr
      rw [if_neg hr]
      have hpre : (((pre.filter isExplicitAdmin).reverse
            ++ pre.filter fun u => !(isExplicitAdmin u)) ++ r :: rest)
          = ((((pre ++ [r]).filter isExplicitAdmin).reverse
              ++ (pre ++ [r]).filter fun u => !(isExplicitAdmin u)) ++ rest) := by
        simp [List.filter_append, hr2, List.append_assoc]
      rw [hpre, hlen]
      have hli : pre.length + 1 = (pre ++ [r]).length := by simp
      rw [hli, ih (pre ++ [r])]
      simp

/-- `Array.prototype.sort` with the source's comparator: explicit-admin users
move to the front in reverse original order, every other user keeps its
original relative position. -/
theorem jsSort_userCompare (l : List CreateUserSpec) :
    jsSort userCompare l
      = (l.filter isExplicitAdmin).reverse
          ++ l.filter fun u => !(isExplicitAdmin u) := by
  cases l with
  | nil => rfl
  | cons x l =>
    have hx : (([x].filter isExplicitAdmin).reverse
        ++ [x].filter fun u => !(isExplicitAdmin u)) = [x] := by
      by_cases h : isExplicitAdmin x = true <;> simp [List.filter_cons, h]
    have h1 : jsSort userCompare (x :: l)
        = jsSortAux userCompare l.length [x].length
            ((([x].filter isExplicitAdmin).reverse
              ++ [x].filter fun u => !(isExplicitAdmin u)) ++ l) := by
      simp [jsSort, hx]
    rw [h1, jsSortAux_userCompare l [x]]
    simp

/-- The creation loop when every command succeeds: one command per user, in
list order, against the user's effective database; every user's `database`
field is overwritten with its default. -/
theorem createUsersLoop_allOk (users : List CreateUserSpec) :
    ∀ idx dbName, createUsersLoop allCmdsOk idx dbName users
      = (users.map fun u => ConnEvent.command (effectiveDb u) (extraUserCommand u),
         CAOutcome.success,
         users.map defaultDbUser) := by
  induction users with
  | nil => intro idx dbName; rfl
  | cons u rest ih =>
    intro idx dbName
    have hdb : (if (defaultDbUser u).database ≠ some dbName then effectiveDb u else dbName)
        = effectiveDb u := by
      by_cases h : (defaultDbUser u).database ≠ some dbName
      · rw [if_pos h]
      · rw [if_neg h]
        have : (defaultDbUser u).database = some dbName := by
          by_contra hc
          exact h hc
        simp only [defaultDbUser] at this
        simpa using this.symm
    simp [createUsersLoop, allCmdsOk, hdb, ih (idx + 1) (effectiveDb u)]

/-- The creation loop never closes the connection. -/
theorem createUsersLoop_no_close (cmdOk : Nat → Bool) (users : List CreateUserSpec) :
    ∀ idx dbName, ConnEvent.close ∉ (createUsersLoop cmdOk idx dbName users).1 := by
  induction users with
  | nil => intro idx dbName; simp [createUsersLoop]
  | cons u rest ih =>
    intro idx dbName
    simp only [createUsersLoop]
    by_cases h : cmdOk idx
    · simp only [if_pos h, List.mem_cons]
      rintro (hc | hc)
      · exact ConnEvent.noConfusion hc
      · exact ih (idx + 1) _ hc
    · simp only [if_neg h, List.mem_cons]
      rintro (hc | hc)
      · exact ConnEvent.noConfusion hc
      · simp at hc

/-- The complete behaviour of `createAuth` when the connection and every
command succeed: connect, root command, one command per sorted user, close;
the stored `extraUsers` array ends up sorted **and** with every `database`
field defaulted. -/
theorem createAuthRun_allOk (ip : String) (port : Nat) (auth : AuthObject) :
    createAuthRun ip port auth true allCmdsOk
      = { trace := [ConnEvent.connect (uriTemplate ip port "admin"),
            ConnEvent.command "admin" (rootUserCommand auth)]
            ++ ((jsSort userCompare auth.extraUsers).map fun u =>
                  ConnEvent.command (effectiveDb u) (extraUserCommand u))
            ++ [ConnEvent.close]
          result := CAOutcome.success
          finalAuth := { auth with extraUsers :=
            (jsSort userCompare auth.extraUsers).map defaultDbUser } } := by
  cases auth with
  | mk disable extraUsers customRootName customRootPwd force =>
    cases extraUsers with
    | nil => simp [createAuthRun, allCmdsOk, jsSort, jsSortAux]
    | cons u us =>
      simp [createAuthRun, allCmdsOk, createUsersLoop_allOk]

/-- The last element of a list extended by a single element. -/
theorem getLast?_append_single (l : List α) (a : α) : (l ++ [a]).getLast? = some a := by
  rw [List.getLast?_append_cons]
  rfl

/-! ## Claim theorems -/

/-- C7 counterexample: with extra users `adminOne`, `adminTwo` (explicitly
targeting `'admin'`), `alice` (targeting `otherdb`) and `bob` (database
unset, hence targeting `'admin'` after defaulting), the issue order of the
code is `adminTwo, adminOne, alice, bob` — the two explicit-admin users are
reversed (ties do not keep their original order) and `bob`, who targets the
administrative database, is issued *after* `alice` — while the claimed
stable admin-first order is `adminOne, adminTwo, bob, alice`. -/
theorem c7_counterexample :
    ((extraCommands (createAuthRun "127.0.0.1" 27017 c7Auth true allCmdsOk)).map
        fun c => c.createUser)
        = ["adminTwo", "adminOne", "alice", "bob"]
      ∧ ((specClaimedOrder c7Auth.extraUsers).map fun u => u.createUser)
        = ["adminOne", "adminTwo", "bob", "alice"]
      ∧ ¬ (((extraCommands (createAuthRun "127.0.0.1" 27017 c7Auth true allCmdsOk)).map
            fun c => c.createUser)
          = (specClaimedOrder c7Auth.extraUsers).map fun u => u.createUser) := by
  decide

/-- Picking the command payload out of the events of the creation loop. -/
theorem filterMap_command_pick (l : List CreateUserSpec) :
    List.filterMap
        (fun e => match e with | ConnEvent.command _ c => some c | _ => none)
        (l.map fun u => ConnEvent.command (effectiveDb u) (extraUserCommand u))
      = l.map extraUserCommand := by
  induction l with
  | nil => rfl
  | cons x l ih => simp [ih]

/-- On the all-success path the extra commands are exactly one command per
sorted user. -/
theorem extraCommands_allOk (ip : String) (port : Nat) (auth : AuthObject) :
    extraCommands (createAuthRun ip port auth true allCmdsOk)
      = (jsSort userCompare auth.extraUsers).map extraUserCommand := by
  rw [createAuthRun_allOk]
  simp only [extraCommands, List.filterMap_append, filterMap_command_pick]
  simp

/-- C7 (amended): the extra `createUser` commands are issued in the order
produced by the engine's in-place sort under the source's comparator — the
users whose `database` field is literally `'admin'` first, in *reverse*
original order, then all remaining users (users with `database` unset among
them) in their original relative order; each command targets the user's
database with `'admin'` substituted for an unset field only at issue time. -/
theorem c7_extra_user_issue_order (ip : String) (port : Nat) (auth : AuthObject) :
    (extraCommands (createAuthRun ip port auth true allCmdsOk)).map
        (fun c => (c.createUser, c.targetDb))
      = ((auth.extraUsers.filter isExplicitAdmin).reverse
          ++ auth.extraUsers.filter fun u => !(isExplicitAdmin u)).map
          fun u => (u.createUser, effectiveDb u) := by
  rw [extraCommands_allOk, jsSort_userCompare]
  simp only [List.map_append, List.map_map]
  have hm : ∀ l : List CreateUserSpec,
      List.map ((fun c => (c.createUser, c.targetDb)) ∘ extraUserCommand) l
        = List.map (fun u => (u.createUser, effectiveDb u)) l := by
    intro l
    induction l with
    | nil => rfl
    | cons x l ih => simp [extraUserCommand, ih]
  rw [List.map_reverse, hm, hm, List.map_reverse]

/-- C10 counterexample: `createAuth` mutates the resolved auth config — with
extra users `adminOne`, `adminTwo`, `bob` (database unset) the stored
`extraUsers` array afterwards differs from the one before the call (the two
admin users are swapped in place and `bob.database` is overwritten with
`'admin'`). -/
theorem c10_counterexample :
    ¬ ((createAuthRun "127.0.0.1" 27017 c10Auth true allCmdsOk).finalAuth = c10Auth) := by
  decide

/-- C10 (amended): `createAuth` consumes the auth config read-write: on a
fully successful run every field except `extraUsers` is preserved, but
`extraUsers` is re-ordered in place by the engine sort (explicit-admin users
first, reversed) and every user's `database` field is overwritten with its
defaulted value. -/
theorem c10_createAuth_mutates_extraUsers (ip : String) (port : Nat) (auth : AuthObject) :
    (createAuthRun ip port auth true allCmdsOk).finalAuth
      = { auth with extraUsers :=
          ((auth.extraUsers.filter isExplicitAdmin).reverse
            ++ auth.extraUsers.filter fun u => !(isExplicitAdmin u)).map defaultDbUser } := by
  rw [createAuthRun_allOk]
  simp [jsSort_userCompare]

/-- C9 counterexample: when the root `createUser` command fails, `createAuth`
propagates the failure with the connection opened but never closed (there is
no `try`/`finally` around the command sequence). -/
theorem c9_counterexample :
    (createAuthRun "127.0.0.1" 27017 c8Auth true rootCmdFails).result
        = CAOutcome.failure "root createUser"
      ∧ (createAuthRun "127.0.0.1" 27017 c8Auth true rootCmdFails).trace ≠ []
      ∧ ConnEvent.close ∉ (createAuthRun "127.0.0.1" 27017 c8Auth true rootCmdFails).trace := by
  decide

/-- C9 (amended): the connection is closed — as the final action — exactly on
the successful path; whenever the connection attempt or any `createUser`
command fails, the error propagates without the connection ever being
closed. -/
theorem c9_close_only_on_success (ip : String) (port : Nat) (auth : AuthObject)
    (connectOk : Bool) (cmdOk : Nat → Bool) :
    ((createAuthRun ip port auth connectOk cmdOk).result = CAOutcome.success →
        (createAuthRun ip port auth connectOk cmdOk).trace.getLast? = some ConnEvent.close)
      ∧ (∀ s, (createAuthRun ip port auth connectOk cmdOk).result = CAOutcome.failure s →
          ConnEvent.close ∉ (createAuthRun ip port auth connectOk cmdOk).trace) := by
  cases connectOk with
  | false =>
    constructor
    · intro h
      have hres : (createAuthRun ip port auth false cmdOk).result
          = CAOutcome.failure "connect" := by simp [createAuthRun]
      rw [hres] at h
      exact CAOutcome.noConfusion h
    · intro s _
      have htr : (createAuthRun ip port auth false cmdOk).trace = [] := by
        simp [createAuthRun]
      rw [htr]
      simp
  | true =>
    by_cases h0 : cmdOk 0
    · by_cases hl : 0 < auth.extraUsers.length
      · rcases ho : (createUsersLoop cmdOk 1 "admin"
            (jsSort userCompare auth.extraUsers)).2.1 with _ | s2
        · constructor
          · intro _
            have htr : (createAuthRun ip port auth true cmdOk).trace
                = (ConnEvent.connect (uriTemplate ip port "admin")
                    :: ConnEvent.command "admin" (rootUserCommand auth)
                    :: (createUsersLoop cmdOk 1 "admin"
                        (jsSort userCompare auth.extraUsers)).1)
                  ++ [ConnEvent.close] := by
              simp [createAuthRun, h0, hl, ho]
            rw [htr, getLast?_append_single]
          · intro s h
            have hres : (createAuthRun ip port auth true cmdOk).result
                = CAOutcome.success := by simp [createAuthRun, h0, hl, ho]
            rw [hres] at h
            exact CAOutcome.noConfusion h
        · constructor
          · intro h
            have hres : (createAuthRun ip port auth true cmdOk).result
                = CAOutcome.failure s2 := by simp [createAuthRun, h0, hl, ho]
            rw [hres] at h
            exact CAOutcome.noConfusion h
          · intro s _
            have htr : (createAuthRun ip port auth true cmdOk).trace
                = ConnEvent.connect (uriTemplate ip port "admin")
                    :: ConnEvent.command "admin" (rootUserCommand auth)
                    :: (createUsersLoop cmdOk 1 "admin"
                        (jsSort userCompare auth.extraUsers)).1 := by
              simp [createAuthRun, h0, hl, ho]
            rw [htr]
            intro hc
            rcases List.mem_cons.mp hc with h1 | hc2
            · exact ConnEvent.noConfusion h1
            rcases List.mem_cons.mp hc2 with h2 | hc3
            · exact ConnEvent.noConfusion h2
            · exact createUsersLoop_no_close cmdOk
                (jsSort userCompare auth.extraUsers) 1 "admin" hc3
      · constructor
        · intro _
          have htr : (createAuthRun ip port auth true cmdOk).trace
              = [ConnEvent.connect (uriTemplate ip port "admin"),
                  ConnEvent.command "admin" (rootUserCommand auth),
                  ConnEvent.close] := by
            simp [createAuthRun, h0, hl]
          rw [htr]
          rfl
        · intro s h
          have hres : (createAuthRun ip port auth true cmdOk).result
              = CAOutcome.success := by simp [createAuthRun, h0, hl]
          rw [hres] at h
          exact CAOutcome.noConfusion h
    · constructor
      · intro h
        have hres : (createAuthRun ip port auth true cmdOk).result
            = CAOutcome.failure "root createUser" := by simp [createAuthRun, h0]
        rw [hres] at h
        exact CAOutcome.noConfusion h
      · intro s _
        have htr : (createAuthRun ip port auth true cmdOk).trace
            = [ConnEvent.connect (uriTemplate ip port "admin"),
                ConnEvent.command "admin" (rootUserCommand auth)] := by
          simp [createAuthRun, h0]
        rw [htr]
        simp

/-- C9 witness: a successful run ends in `close`; the run whose root command
fails never closes. -/
theorem c9_close_witness :
    (createAuthRun "127.0.0.1" 27017 c7Auth true allCmdsOk).trace.getLast?
        = some ConnEvent.close
      ∧ ConnEvent.close ∉ (createAuthRun "127.0.0.1" 27017 c8Auth true rootCmdFails).trace :=
  ⟨(c9_close_only_on_success "127.0.0.1" 27017 c7Auth true allCmdsOk).1 (by decide),
   (c9_close_only_on_success "127.0.0.1" 27017 c8Auth true rootCmdFails).2
     "root createUser" (by decide)⟩

/-- C8: evaluation at the failing input.  The root user is created first
(trace position 1, right after `connect`), unconditionally, with role `root`,
mechanism `SCRAM-SHA-256` and the configured `customRootName` — but its
password is the hardcoded literal `'rootuser'`, ignoring the configured
`customRootPwd` (`"secret-root-pw"` here), contradicting the
`AutomaticAuth.customRootPwd` documentation.  With an all-default config the
two coincide, which is why the defaults mask the bug. -/
theorem c8_root_password_hardcoded :
    (createAuthRun "127.0.0.1" 27017 c8Auth true allCmdsOk).trace.get? 1
        = some (ConnEvent.command "admin" (rootUserCommand c8Auth))
      ∧ (rootUserCommand c8Auth).pwd = "rootuser"
      ∧ ¬ ((rootUserCommand c8Auth).pwd = c8Auth.customRootPwd)
      ∧ (rootUserCommand c8Auth).createUser = c8Auth.customRootName
      ∧ (rootUserCommand c8Auth).roles = ["root"]
      ∧ (rootUserCommand c8Auth).mechanisms = some ["SCRAM-SHA-256"]
      ∧ (rootUserCommand c8Auth).targetDb = "admin"
      ∧ (createAuthRun "127.0.0.1" 27017 c8Auth true rootCmdFails).trace.get? 1
        = some (ConnEvent.command "admin" (rootUserCommand c8Auth))
      ∧ (rootUserCommand (authDefault ⟨none, none, none, none, none⟩)).createUser
        = "mongodb-memory-server-root"
      ∧ (rootUserCommand (authDefault ⟨none, none, none, none, none⟩)).pwd
        = (authDefault ⟨none, none, none, none, none⟩).customRootPwd := by
  decide

/-- C1: evaluation at the failing input.  With a caller-supplied, *non-empty*
data directory, auth requested, `force: false` and no replica set, the code
still computes `createAuth = true`, because the flag is computed before the
directory is inspected, while `isNew` still holds its initial value `true`
(the claimed decision, `specShouldBootstrap`, is `false` here).  The later
`isNew = files.length > 0` assignment is never read again (and is itself
inverted relative to its own comment). -/
theorem c1_bootstrap_ignores_existing_data :
    (startUpInstance (some c1Auth) c1InstOpts 27017 "/tmp/mongo-mem-x"
        ["WiredTiger.wt", "journal"]).createAuth = true
      ∧ specShouldBootstrap (some c1Auth) c1InstOpts ["WiredTiger.wt", "journal"] = false
      ∧ c1Auth.force = false
      ∧ (startUpInstance (some c1Auth) c1InstOpts 27017 "/tmp/mongo-mem-x"
          ["WiredTiger.wt", "journal"]).isNewFinal = true := by
  decide

/-- C2: evaluation at the failing interleaving.  Two direct `start()` callers
interleaved before either's `_startUpInstance` resolves both pass the guard
(which tests `_instanceInfo`, still `undefined` while state is `starting`)
and so **two** startup-protocol executions are in flight simultaneously.
Additionally, when an in-flight startup fails, no `stateChange` is emitted,
so an `ensureInstance` caller that registered as a waiter while state was
`starting` is never settled (it neither resolves nor fails). -/
theorem c2_two_startups_in_flight :
    ((runTrace cfgTwoStarts [SLabel.run 1, SLabel.run 2]).startCount = 2
        ∧ (runTrace cfgTwoStarts [SLabel.run 1, SLabel.run 2]).tasks 1
          = TaskCode.startAwait false
        ∧ (runTrace cfgTwoStarts [SLabel.run 1, SLabel.run 2]).tasks 2
          = TaskCode.startAwait false
        ∧ (runTrace cfgTwoStarts [SLabel.run 1, SLabel.run 2]).st = MState.starting)
      ∧ ((runTrace cfgStartingEnsure
            [SLabel.run 3, SLabel.resolve 1 (SOutcome.fail 42)]).tasks 3
          = TaskCode.waiting
        ∧ (runTrace cfgStartingEnsure
            [SLabel.run 3, SLabel.resolve 1 (SOutcome.fail 42)]).tasks 1
          = TaskCode.done (PResult.err (MErr.startupFailed 42))
        ∧ (runTrace cfgStartingEnsure
            [SLabel.run 3, SLabel.resolve 1 (SOutcome.fail 42)]).st
          = MState.starting
        ∧ (runTrace cfgStartingEnsure
            [SLabel.run 3, SLabel.resolve 1 (SOutcome.fail 42)]).startCount = 1) := by
  decide

/-- A positive `createAuth` decision forces `instOpts.auth === true` and a
present resolved auth config. -/
theorem createAuthDecision_true_cases (ao : Option AuthObject) (io : InstanceOpts)
    (b : Bool) (h : createAuthDecision ao io b = true) :
    io.auth = some true ∧ ao.isSome = true := by
  unfold createAuthDecision at h
  rcases hB : io.auth with _ | bv
  · rw [hB] at h
    simp [optBoolTruthy] at h
  · rw [hB] at h
    cases ao with
    | none => simp [optBoolTruthy] at h
    | some a =>
      simp only [optBoolTruthy, Bool.and_eq_true] at h
      exact ⟨by rw [h.1.1], rfl⟩

/-- C4: whenever bootstrap will run, the first process launch carries
`auth: false` regardless of the caller's setting (which must have been
`true` for bootstrap to run at all); otherwise the caller's setting passes
through unchanged.  After bootstrap, a persistent storage engine triggers a
kill plus a relaunch whose configuration is identical except `auth`, reusing
the same port and data directory; an ephemeral engine triggers no kill, no
relaunch, and the warning instead. -/
theorem c4_process_auth_and_relaunch (authObj : Option AuthObject) (io : InstanceOpts)
    (gotPort : Nat) (tmpName : String) (files : List String) :
    ((startUpInstance authObj io gotPort tmpName files).firstOpts.auth
        = if (startUpInstance authObj io gotPort tmpName files).createAuth then some false
          else io.auth)
      ∧ ((startUpInstance authObj io gotPort tmpName files).createAuth = true →
          io.auth = some true)
      ∧ ((startUpInstance authObj io gotPort tmpName files).createAuth = true →
          ¬((startUpInstance authObj io gotPort tmpName files).data.storageEngine
              = "ephemeralForTest") →
          (startUpInstance authObj io gotPort tmpName files).killedNoAuth = true
            ∧ (startUpInstance authObj io gotPort tmpName files).relaunchOpts
              = some { (startUpInstance authObj io gotPort tmpName files).firstOpts with
                  auth := io.auth }
            ∧ (startUpInstance authObj io gotPort tmpName files).warnedEphemeral = false)
      ∧ ((startUpInstance authObj io gotPort tmpName files).createAuth = true →
          (startUpInstance authObj io gotPort tmpName files).data.storageEngine
              = "ephemeralForTest" →
          (startUpInstance authObj io gotPort tmpName files).killedNoAuth = false
            ∧ (startUpInstance authObj io gotPort tmpName files).relaunchOpts = none
            ∧ (startUpInstance authObj io gotPort tmpName files).warnedEphemeral = true)
      ∧ ((startUpInstance authObj io gotPort tmpName files).createAuth = false →
          (startUpInstance authObj io gotPort tmpName files).killedNoAuth = false
            ∧ (startUpInstance authObj io gotPort tmpName files).relaunchOpts = none
            ∧ (startUpInstance authObj io gotPort tmpName files).warnedEphemeral = false)
      ∧ (∀ ro, (startUpInstance authObj io gotPort tmpName files).relaunchOpts = some ro →
          ro.port = (startUpInstance authObj io gotPort tmpName files).firstOpts.port
            ∧ ro.dbPath = (startUpInstance authObj io gotPort tmpName files).firstOpts.dbPath
            ∧ ro.auth = io.auth) := by
  refine ⟨?_, ?_, ?_, ?_, ?_, ?_⟩
  · simp [startUpInstance, mkFirstOpts]
  · intro h
    simp only [startUpInstance] at h
    exact (createAuthDecision_true_cases authObj io true h).1
  · intro hca heph
    simp only [startUpInstance] at hca heph ⊢
    have hsome := (createAuthDecision_true_cases authObj io true hca).2
    simp [hca, hsome, heph]
  · intro hca heph
    simp only [startUpInstance] at hca heph ⊢
    have hsome := (createAuthDecision_true_cases authObj io true hca).2
    simp [hca, hsome, heph]
  · intro hca
    simp only [startUpInstance] at hca ⊢
    simp [hca]
  · intro ro h
    simp only [startUpInstance] at h ⊢
    rcases hcond : (authObj.isSome && createAuthDecision authObj io true
        && !decide ((resolveData io gotPort tmpName files).1.storageEngine
            = "ephemeralForTest")) with _ | _
    · rw [hcond] at h
      simp at h
    · rw [hcond] at h
      simp only [if_pos] at h
      have h2 := Option.some.inj h
      rw [← h2]
      simp [mkFirstOpts]

/-- C4 witness: a run on a persistent storage engine with bootstrap kills the
no-auth process and relaunches with only `auth` changed. -/
theorem c4_witness :
    (startUpInstance (some c1Auth) c1InstOpts 27017 "/tmp/t" []).killedNoAuth = true
      ∧ (startUpInstance (some c1Auth) c1InstOpts 27017 "/tmp/t" []).relaunchOpts
        = some { (startUpInstance (some c1Auth) c1InstOpts 27017 "/tmp/t" []).firstOpts with
            auth := c1InstOpts.auth }
      ∧ (startUpInstance (some c1Auth) c1InstOpts 27017 "/tmp/t" []).warnedEphemeral = false :=
  (c4_process_auth_and_relaunch (some c1Auth) c1InstOpts 27017 "/tmp/t" []).2.2.1
    (by decide) (by decide)

/-- C5: `stop()` is idempotent and ordered: absent instance data it is a pure
success; otherwise the kill comes first (and a kill failure surfaces,
leaving everything untouched), then the temporary-directory release when a
handle exists, then the clearing of the instance data, then the `stopped`
transition; across two consecutive calls the directory handle is released
exactly once. -/
theorem c5_stop_idempotent_ordered (s : StopState) (i : StopInfo) :
    (s.info = none → ∀ k, stopRun k s = (StopResult.ok true, s, []))
      ∧ (s.info = some i →
          stopRun true s
            = (StopResult.ok true, { info := none, st := MState.stopped },
                [StopEffect.killInstance] ++
                  (match i.tmpDir with
                   | some n => [StopEffect.removeTmpDir n]
                   | none => []) ++
                  [StopEffect.clearInstanceInfo, StopEffect.stateChanged MState.stopped]))
      ∧ (s.info = some i →
          stopRun false s = (StopResult.err "kill failed", s, [StopEffect.killInstance]))
      ∧ (s.info = some i →
          stopRun true (stopRun true s).2.1 = (StopResult.ok true, (stopRun true s).2.1, [])
            ∧ countTmpReleases ((stopRun true s).2.2
                ++ (stopRun true (stopRun true s).2.1).2.2)
              = if i.tmpDir.isSome then 1 else 0) := by
  refine ⟨?_, ?_, ?_, ?_⟩
  · intro h k
    simp [stopRun, h]
  · intro h
    simp [stopRun, h]
  · intro h
    simp [stopRun, h]
  · intro h
    constructor
    · simp [stopRun, h]
    · cases htd : i.tmpDir with
      | none =>
        simp [stopRun, h, htd, countTmpReleases, List.countP_cons, List.countP_nil]
      | some n =>
        simp [stopRun, h, htd, countTmpReleases, List.countP_cons, List.countP_nil]

/-- C5 witness: stopping a running instance with a temporary directory. -/
theorem c5_witness :
    stopRun true c5State
      = (StopResult.ok true, { info := none, st := MState.stopped },
          [StopEffect.killInstance, StopEffect.removeTmpDir "/tmp/mongo-mem-1",
            StopEffect.clearInstanceInfo, StopEffect.stateChanged MState.stopped])
      ∧ countTmpReleases ((stopRun true c5State).2.2
          ++ (stopRun true (stopRun true c5State).2.1).2.2) = 1 :=
  ⟨(c5_stop_idempotent_ordered c5State ⟨27017, some "/tmp/mongo-mem-1"⟩).2.1 rfl,
   ((c5_stop_idempotent_ordered c5State ⟨27017, some "/tmp/mongo-mem-1"⟩).2.2.2 rfl).2⟩

/-- C6: calling `start()` while instance data is present fails immediately
with the double-start error and leaves the lifecycle state, the instance
data, the waiter list, the startup count and every other task untouched (in
particular no `stateChange` notification fires). -/
theorem c6_start_fails_fast (c : Config) (id : Nat) (d : Nat)
    (h1 : c.tasks id = TaskCode.startEntry) (h2 : c.info = some d) :
    step c (SLabel.run id) = setTask c id (TaskCode.done (PResult.err MErr.alreadyRunning))
      ∧ (step c (SLabel.run id)).st = c.st
      ∧ (step c (SLabel.run id)).info = c.info
      ∧ (step c (SLabel.run id)).waiters = c.waiters
      ∧ (step c (SLabel.run id)).startCount = c.startCount
      ∧ ∀ j, ¬(j = id) → (step c (SLabel.run id)).tasks j = c.tasks j := by
  have hstep : step c (SLabel.run id)
      = setTask c id (TaskCode.done (PResult.err MErr.alreadyRunning)) := by
    simp only [step, h1, h2]
  refine ⟨hstep, by rw [hstep]; rfl, by rw [hstep]; rfl, by rw [hstep]; rfl,
    by rw [hstep]; rfl, ?_⟩
  intro j hj
  rw [hstep]
  simp [setTask, hj]

/-- C6 witness: the double-start error at a concrete configuration. -/
theorem c6_witness :
    step c6Cfg (SLabel.run 1)
      = setTask c6Cfg 1 (TaskCode.done (PResult.err MErr.alreadyRunning)) :=
  (c6_start_fails_fast c6Cfg 1 9 rfl rfl).1

/-- C3: the `ensureInstance()` contract.  With instance data present it
resolves immediately with that data; in state `running` without data it
fails with the internal-consistency error; in `new`/`stopped` it invokes
`start()` (one new startup execution begins and the task suspends inside
it); in `starting` it starts nothing new but registers a one-shot waiter,
leaving state, data and the startup count untouched; a registered waiter is
settled by the next notification — with the current instance data if it
reports `running`, with an error naming the state otherwise; and the
startup resolution behind an `ensureInstance`-initiated `start()` hands the
new data back to the caller (or its failure rejects the caller). -/
theorem c3_ensureInstance_contract (c : Config) (id : Nat) (d e : Nat) (s : MState) :
    (c.tasks id = TaskCode.ensureEntry → c.info = some d →
        step c (SLabel.run id) = setTask c id (TaskCode.done (PResult.ok (some d))))
      ∧ (c.tasks id = TaskCode.ensureEntry → c.info = none → c.st = MState.running →
          step c (SLabel.run id)
            = setTask c id (TaskCode.done (PResult.err MErr.runningButNoInfo)))
      ∧ (c.tasks id = TaskCode.ensureEntry → c.info = none →
          (c.st = MState.new ∨ c.st = MState.stopped) →
          step c (SLabel.run id) = beginStart c id true
            ∧ (beginStart c id true).startCount = c.startCount + 1
            ∧ (beginStart c id true).tasks id = TaskCode.startAwait true)
      ∧ (c.tasks id = TaskCode.ensureEntry → c.info = none → c.st = MState.starting →
          step c (SLabel.run id)
              = { setTask c id TaskCode.waiting with waiters := c.waiters ++ [id] }
            ∧ (step c (SLabel.run id)).startCount = c.startCount
            ∧ (step c (SLabel.run id)).st = c.st
            ∧ (step c (SLabel.run id)).info = c.info)
      ∧ (c.tasks id = TaskCode.waiting → id ∈ c.waiters →
          (emitStateChange c MState.running).tasks id = TaskCode.done (PResult.ok c.info)
            ∧ (¬(s = MState.running) →
                (emitStateChange c s).tasks id
                  = TaskCode.done (PResult.err (MErr.unexpectedState s))))
      ∧ (c.tasks id = TaskCode.startAwait true →
          step c (SLabel.resolve id (SOutcome.ok d))
            = setTask (emitStateChange { c with info := some d } MState.running) id
                TaskCode.ensureAfterStart)
      ∧ (c.tasks id = TaskCode.startAwait true →
          step c (SLabel.resolve id (SOutcome.fail e))
            = setTask c id (TaskCode.done (PResult.err (MErr.startupFailed e))))
      ∧ (c.tasks id = TaskCode.ensureAfterStart → c.info = some d →
          step c (SLabel.run id) = setTask c id (TaskCode.done (PResult.ok (some d)))) := by
  refine ⟨?_, ?_, ?_, ?_, ?_, ?_, ?_, ?_⟩
  · intro h1 h2
    simp only [step, h1, h2]
  · intro h1 h2 h3
    simp only [step, h1, h2, h3]
  · intro h1 h2 h3
    have hstep : step c (SLabel.run id) = beginStart c id true := by
      rcases h3 with h3 | h3 <;> simp only [step, h1, h2, h3]
    refine ⟨hstep, rfl, ?_⟩
    simp [beginStart, setTask]
  · intro h1 h2 h3
    have hstep : step c (SLabel.run id)
        = { setTask c id TaskCode.waiting with waiters := c.waiters ++ [id] } := by
      simp only [step, h1, h2, h3]
    refine ⟨hstep, by rw [hstep]; rfl, by rw [hstep]; rfl, by rw [hstep]; rfl⟩
  · intro h1 h2
    constructor
    · simp [emitStateChange, h1, h2, waiterResult]
    · intro hs
      simp [emitStateChange, h1, h2, waiterResult, hs]
  · intro h1
    simp only [step, h1]
    rfl
  · intro h1
    simp only [step, h1]
  · intro h1 h2
    simp only [step, h1, h2]

/-- C3 witness: the contract evaluated at concrete configurations for each
branch. -/
theorem c3_witness :
    step c3CfgInfoPresent (SLabel.run 1)
        = setTask c3CfgInfoPresent 1 (TaskCode.done (PResult.ok (some 5)))
      ∧ step c3CfgRunningNoInfo (SLabel.run 1)
        = setTask c3CfgRunningNoInfo 1 (TaskCode.done (PResult.err MErr.runningButNoInfo))
      ∧ step c3CfgNew (SLabel.run 1) = beginStart c3CfgNew 1 true
      ∧ step c3CfgStarting (SLabel.run 1)
        = { setTask c3CfgStarting 1 TaskCode.waiting with
            waiters := c3CfgStarting.waiters ++ [1] }
      ∧ (emitStateChange c3CfgWaiting MState.running).tasks 1
        = TaskCode.done (PResult.ok c3CfgWaiting.info)
      ∧ (emitStateChange c3CfgWaiting MState.stopped).tasks 1
        = TaskCode.done (PResult.err (MErr.unexpectedState MState.stopped)) :=
  ⟨(c3_ensureInstance_contract c3CfgInfoPresent 1 5 0 MState.new).1 rfl rfl,
   (c3_ensureInstance_contract c3CfgRunningNoInfo 1 0 0 MState.new).2.1 rfl rfl rfl,
   ((c3_ensureInstance_contract c3CfgNew 1 0 0 MState.new).2.2.1 rfl rfl (Or.inl rfl)).1,
   ((c3_ensureInstance_contract c3CfgStarting 1 0 0 MState.new).2.2.2.1 rfl rfl rfl).1,
   ((c3_ensureInstance_contract c3CfgWaiting 1 0 0 MState.stopped).2.2.2.2.1 rfl
      (by decide)).1,
   ((c3_ensureInstance_contract c3CfgWaiting 1 0 0 MState.stopped).2.2.2.2.1 rfl
      (by decide)).2 (by decide)⟩
